import Mathlib

/-! # missile.c — USB missile launcher control

A shallow embedding of `src/missile.c`.  The program is a single C file built
on libusb.  Its state is five globals (`attached`, `claimed`, `ctx`, `devices`,
`handle`); its observable behaviour is the sequence of libusb / stdio calls it
makes and the status `main` returns.

Modelling conventions
* C `int`s are `Int`; a C condition `if (x)` is `x ≠ 0`.
* A pointer is an `Option`: `none` is the null pointer.
* The results of the library calls are not determined by the program; they are
  supplied by an environment (`Env`, `Teardown`).
* Every function returns the trace of calls it made, in program order.
* `getch` is modelled by the value `getchar` yields; the `tcgetattr` /
  `tcsetattr` calls that bracket the read do not influence that value and are
  not recorded in the trace.
-/

namespace Missile

/-! ## Constants (lines 32–47) -/

def VENDOR : Nat := 0x2123
def PRODUCT : Nat := 0x1010

/-- `LIBUSB_RECIPIENT_INTERFACE | LIBUSB_REQUEST_TYPE_CLASS | LIBUSB_ENDPOINT_OUT`
with the values of `libusb.h` (0x01, 0x20, 0x00). -/
def REQUESTTYPE : Nat := 0x01 ||| 0x20 ||| 0x00
/-- `LIBUSB_REQUEST_SET_CONFIGURATION` of `libusb.h`. -/
def REQUEST : Nat := 0x09
def VALUE : Nat := 0x00
def INDEX : Nat := 0x00
def LENGTH : Nat := 8

def CMD_UP : Int := 0
def CMD_DOWN : Int := 1
def CMD_LEFT : Int := 2
def CMD_RIGHT : Int := 3
def CMD_STOP : Int := 4
def CMD_FIRE : Int := 5

/-- The table `cmds[][LENGTH]` (lines 50–58). -/
def cmds : List (List Nat) :=
  [ [0x02, 0x02, 0x00, 0x00, 0x00, 0x00, 0x00, 0x00],
    [0x02, 0x01, 0x00, 0x00, 0x00, 0x00, 0x00, 0x00],
    [0x02, 0x04, 0x00, 0x00, 0x00, 0x00, 0x00, 0x00],
    [0x02, 0x08, 0x00, 0x00, 0x00, 0x00, 0x00, 0x00],
    [0x02, 0x20, 0x00, 0x00, 0x00, 0x00, 0x00, 0x00],
    [0x02, 0x10, 0x00, 0x00, 0x00, 0x00, 0x00, 0x00] ]

/-- The array access `cmds[cmd]`: the row when the index is inside the table,
`none` when the access is out of range (undefined behaviour in C). -/
def cmdsRow (cmd : Int) : Option (List Nat) :=
  if 0 ≤ cmd then cmds.get? cmd.toNat else none

/-! ## Data model -/

/-- The two fields of `struct libusb_device_descriptor` the program reads. -/
structure Descriptor where
  idVendor : Nat
  idProduct : Nat
  deriving DecidableEq, Repr

/-- The globals of lines 60–63.  `devices` points to the enumerated list (the
descriptors of the devices in it); `ctx` and `handle` are pointers identified
by a number. -/
structure Session where
  attached : Int
  claimed : Int
  ctx : Option Nat
  devices : Option (List Descriptor)
  handle : Option Nat
  deriving DecidableEq, Repr

/-- The texts the program prints. -/
inductive Msg where
  | failedGetDeviceList (ret : Int)
  | deviceNotFound
  | failedOpen (ret : Int)
  | failedDetach (ret : Int)
  | failedDriverActive (ret : Int)
  | failedClaim (ret : Int)
  | usageArrows
  | usageKeys
  | unrecognizedKey (key : Int)
  | failedRelease (ret : Int)
  | failedReattach (ret : Int)
  deriving DecidableEq, Repr

/-- The library calls the program makes, with the arguments that matter. -/
inductive Call where
  | signal
  | init
  | getDeviceList (ctx : Option Nat)
  | getDeviceDescriptor (index : Nat)
  | openDevice (index : Nat)
  | freeDeviceList (devices : Option (List Descriptor))
  | kernelDriverActive (handle : Option Nat) (iface : Nat)
  | detachKernelDriver (handle : Option Nat) (iface : Nat)
  | claimInterface (handle : Option Nat) (iface : Nat)
  | releaseInterface (handle : Option Nat) (iface : Nat)
  | attachKernelDriver (handle : Option Nat) (iface : Nat)
  | close (handle : Option Nat)
  | exit (ctx : Option Nat)
  | controlTransfer (handle : Option Nat) (requestType request value index : Nat)
      (data : Option (List Nat)) (length : Nat) (timeout : Nat)
  | printf (msg : Msg)
  deriving DecidableEq, Repr

/-- What the two fallible teardown calls of `cleanup` return. -/
structure Teardown where
  releaseRet : Int
  attachRet : Int
  deriving DecidableEq, Repr

/-- The globals after a function returned, the calls it made, and its return
value. -/
structure Result where
  session : Session
  trace : List Call
  ret : Int
  deriving DecidableEq, Repr

/-- Put calls made earlier in front of a result's trace. -/
def Result.after (pre : List Call) (r : Result) : Result :=
  { r with trace := pre ++ r.trace }

/-! ## `cleanup` (lines 93–121) -/

/-- The function `cleanup(err)`.  No global is assigned anywhere in its body,
so the session it returns is the one it was given. -/
def cleanup (err : Int) (s : Session) (t : Teardown) : Result :=
  -- if(devices) libusb_free_device_list(devices, 1);
  let tr0 : List Call := if s.devices.isSome then [Call.freeDeviceList s.devices] else []
  -- if(claimed && (ret = libusb_release_interface(handle, 0)))
  let tr1 := if s.claimed ≠ 0 then tr0 ++ [Call.releaseInterface s.handle 0] else tr0
  if s.claimed ≠ 0 ∧ t.releaseRet ≠ 0 then
    { session := s
      trace := tr1 ++ [Call.close s.handle, Call.exit s.ctx,
        Call.printf (Msg.failedRelease t.releaseRet)]
      ret := if err ≠ 0 then err else 6 }
  else
    -- if(attached && (ret = libusb_attach_kernel_driver(handle, 0)))
    let tr2 := if s.attached ≠ 0 then tr1 ++ [Call.attachKernelDriver s.handle 0] else tr1
    if s.attached ≠ 0 ∧ t.attachRet ≠ 0 then
      { session := s
        trace := tr2 ++ [Call.close s.handle, Call.exit s.ctx,
          Call.printf (Msg.failedReattach t.attachRet)]
        ret := if err ≠ 0 then err else 7 }
    else
      -- if(handle) libusb_close(handle);
      let tr3 := if s.handle.isSome then tr2 ++ [Call.close s.handle] else tr2
      -- if(ctx) libusb_exit(ctx);
      let tr4 := if s.ctx.isSome then tr3 ++ [Call.exit s.ctx] else tr3
      { session := s, trace := tr4, ret := err }

/-- The function `handler(signal)` (lines 123–126): it calls `cleanup(0)`,
drops the status, and returns to the interrupted code. -/
def handler (s : Session) (t : Teardown) : Session × List Call :=
  let r := cleanup 0 s t
  (r.session, r.trace)

/-! ## Key decoding (lines 66–91) -/

/-- The function `getch()`: one `getchar()` on the terminal.  The pending
terminal input is a list of bytes; when it is used up `getchar` yields `EOF`
(-1) and the input stays used up. -/
def getch (input : List Nat) : Int × List Nat :=
  match input with
  | [] => (-1, [])
  | b :: rest => (Int.ofNat b, rest)

/-- The function `get()`: the decoded key and the input left over. -/
def get (input : List Nat) : Int × List Nat :=
  -- if((c = getch()) == 27)
  let r1 := getch input
  if r1.1 = 27 then
    -- if((c = getch()) == '[')
    let r2 := getch r1.2
    if r2.1 = 91 then
      -- return getch();
      getch r2.2
    else
      -- return c;
      r2
  else
    -- return c;
    r1

/-! ## The input loop (lines 203–220) -/

/-- What one pass through the `switch` of the loop does. -/
inductive Step where
  /-- a case that assigns `cmd` and leaves the switch through `break` -/
  | send (cmd : Int)
  /-- `case 'q': return cleanup(0);` -/
  | quit
  /-- `default:` print and `continue` -/
  | unrecognized
  deriving DecidableEq, Repr

/-- The `switch(ret)` of lines 205–217, for the current value of `cmd`. -/
def keySwitch (cmd : Int) (ret : Int) : Step :=
  if ret = 65 then Step.send (if cmd = CMD_UP then CMD_STOP else CMD_UP)
  else if ret = 66 then Step.send (if cmd = CMD_DOWN then CMD_STOP else CMD_DOWN)
  else if ret = 67 then Step.send (if cmd = CMD_RIGHT then CMD_STOP else CMD_RIGHT)
  else if ret = 68 then Step.send (if cmd = CMD_LEFT then CMD_STOP else CMD_LEFT)
  else if ret = 10 then Step.send CMD_FIRE
  else if ret = 32 then Step.send CMD_STOP
  else if ret = 113 then Step.quit
  else Step.unrecognized

/-- The call of lines 218–219, `libusb_control_transfer(handle, REQUESTTYPE,
REQUEST, VALUE, INDEX, cmds[cmd], LENGTH, 0)`. -/
def transfer (s : Session) (cmd : Int) : Call :=
  Call.controlTransfer s.handle REQUESTTYPE REQUEST VALUE INDEX (cmdsRow cmd) LENGTH 0

/-- The loop `while((ret = get())) { ... }` followed by the end of `main`.
`fuel` bounds the number of iterations; `none` means the loop was still running
when the fuel was used up.  When `get()` yields 0 the loop ends and control
reaches the closing brace of `main`, which returns 0. -/
def inputLoop : Nat → Session → Teardown → Int → List Nat → Option Result
  | 0, _, _, _, _ => none
  | fuel + 1, s, t, cmd, input =>
    let k := get input
    if k.1 = 0 then
      some { session := s, trace := [], ret := 0 }
    else
      match keySwitch cmd k.1 with
      | Step.send c => (inputLoop fuel s t c k.2).map (Result.after [transfer s c])
      | Step.quit => some (cleanup 0 s t)
      | Step.unrecognized =>
        (inputLoop fuel s t cmd k.2).map (Result.after [Call.printf (Msg.unrecognizedKey k.1)])

/-! ## `main` (lines 128–221) -/

/-- The results of the library calls of one run, and the terminal input. -/
structure Env where
  /-- return value of `libusb_init`; on success `ctx` is set to `ctxPtr` -/
  initRet : Int
  ctxPtr : Nat
  /-- return value of `libusb_get_device_list`; when it is not negative
  `devices` is set to the list `deviceList` -/
  getDeviceListRet : Int
  deviceList : List Descriptor
  /-- return value of `libusb_open`; on success `handle` is set to `handlePtr` -/
  openRet : Int
  handlePtr : Nat
  kernelDriverActiveRet : Int
  detachRet : Int
  claimRet : Int
  teardown : Teardown
  input : List Nat
  deriving DecidableEq, Repr

/-- The scan of lines 149–156 over the list from position `i` on: the
descriptor reads it makes and the position where it stops on a match (`none`:
it reached the terminating null entry). -/
def scan : List Descriptor → Nat → List Call × Option Nat
  | [], _ => ([], none)
  | d :: ds, i =>
    if d.idVendor = VENDOR ∧ d.idProduct = PRODUCT then
      ([Call.getDeviceDescriptor i], some i)
    else
      let r := scan ds (i + 1)
      (Call.getDeviceDescriptor i :: r.1, r.2)

/-- Lines 192–221 of `main`: the interface claim and what follows it.  `pre`
is the trace of the calls made so far. -/
def mainClaim (e : Env) (fuel : Nat) (s : Session) (pre : List Call) : Option Result :=
  -- if((ret = libusb_claim_interface(handle, 0)))
  let pre := pre ++ [Call.claimInterface s.handle 0]
  if e.claimRet ≠ 0 then
    some ((cleanup 5 s e.teardown).after (pre ++ [Call.printf (Msg.failedClaim e.claimRet)]))
  else
    -- claimed = 1;
    let s := { s with claimed := 1 }
    (inputLoop fuel s e.teardown (-1) e.input).map
      (Result.after (pre ++ [Call.printf Msg.usageArrows, Call.printf Msg.usageKeys]))

/-- Lines 173–221 of `main`: from the kernel-driver query on, with `handle`
open and the device list already freed. -/
def mainDriver (e : Env) (fuel : Nat) (s : Session) : Option Result :=
  -- switch((ret = libusb_kernel_driver_active(handle, 0)))
  let pre := [Call.kernelDriverActive s.handle 0]
  if e.kernelDriverActiveRet = 0 then
    mainClaim e fuel s pre
  else if e.kernelDriverActiveRet = 1 then
    -- attached = 1;
    let s := { s with attached := 1 }
    -- if((ret = libusb_detach_kernel_driver(handle, 0)))
    let pre := pre ++ [Call.detachKernelDriver s.handle 0]
    if e.detachRet ≠ 0 then
      some ((cleanup 3 s e.teardown).after (pre ++ [Call.printf (Msg.failedDetach e.detachRet)]))
    else
      mainClaim e fuel s pre
  else
    some ((cleanup 4 s e.teardown).after
      (pre ++ [Call.printf (Msg.failedDriverActive e.kernelDriverActiveRet)]))

/-- The function `main`. -/
def main (e : Env) (fuel : Nat) : Option Result :=
  -- ctx = 0; devices = 0; handle = 0; attached = claimed = 0;
  let s : Session := { attached := 0, claimed := 0, ctx := none, devices := none, handle := none }
  -- signal(SIGINT, handler); libusb_init(&ctx);
  let s := { s with ctx := if e.initRet = 0 then some e.ctxPtr else none }
  let pre := [Call.signal, Call.init, Call.getDeviceList s.ctx]
  -- if((ret = libusb_get_device_list(ctx, &devices)) < 0)
  if e.getDeviceListRet < 0 then
    some { session := s
           trace := pre ++ [Call.printf (Msg.failedGetDeviceList e.getDeviceListRet)]
           ret := 1 }
  else
    let s := { s with devices := some e.deviceList }
    let found := scan e.deviceList 0
    let pre := pre ++ found.1
    match found.2 with
    | none =>
      -- if(!*ptr) { printf(...); return cleanup(0); }
      some ((cleanup 0 s e.teardown).after (pre ++ [Call.printf Msg.deviceNotFound]))
    | some i =>
      -- if((ret = libusb_open(*ptr, &handle)))
      let pre := pre ++ [Call.openDevice i]
      if e.openRet ≠ 0 then
        some ((cleanup 2 s e.teardown).after (pre ++ [Call.printf (Msg.failedOpen e.openRet)]))
      else
        let s := { s with handle := some e.handlePtr }
        -- libusb_free_device_list(devices, 1); devices = 0;
        let pre := pre ++ [Call.freeDeviceList s.devices]
        let s := { s with devices := none }
        (mainDriver e fuel s).map (Result.after pre)

/-! ## Definitions used to state the properties -/

/-- The teardown list of the specification, `[free device list, release
interface 0, reattach kernel driver, close handle, exit context]`, each entry
paired with the flag that selects it. -/
def teardownOrder (s : Session) : List (Bool × Call) :=
  [ (s.devices.isSome, Call.freeDeviceList s.devices),
    (decide (s.claimed ≠ 0), Call.releaseInterface s.handle 0),
    (decide (s.attached ≠ 0), Call.attachKernelDriver s.handle 0),
    (s.handle.isSome, Call.close s.handle),
    (s.ctx.isSome, Call.exit s.ctx) ]

/-- The sub-sequence of `teardownOrder` selected by the flags of the session. -/
def selectedTeardown (s : Session) : List Call :=
  ((teardownOrder s).filter (fun p => p.1)).map (fun p => p.2)

/-- The four directional commands. -/
def directional : List Int := [CMD_UP, CMD_DOWN, CMD_LEFT, CMD_RIGHT]

/-- The Input State of the specification: the active directional command held
in the loop variable `cmd`, or none. -/
def inputState (cmd : Int) : Option Int :=
  if cmd ∈ directional then some cmd else none

/-- The decoded key of a directional command, read off the `case` labels of
lines 207–210: 'A' up, 'B' down, 'C' right, 'D' left. -/
def dirKey (d : Int) : Int :=
  if d = CMD_UP then 65 else if d = CMD_DOWN then 66 else if d = CMD_RIGHT then 67 else 68

def Call.isControlTransfer : Call → Bool
  | Call.controlTransfer _ _ _ _ _ _ _ _ => true
  | _ => false

def Call.isOpenDevice : Call → Bool
  | Call.openDevice _ => true
  | _ => false

def Call.isFreeDeviceList : Call → Bool
  | Call.freeDeviceList _ => true
  | _ => false

def Call.isReleaseInterface : Call → Bool
  | Call.releaseInterface _ _ => true
  | _ => false

def Call.isAttachKernelDriver : Call → Bool
  | Call.attachKernelDriver _ _ => true
  | _ => false

def Call.isClose : Call → Bool
  | Call.close _ => true
  | _ => false

def Call.isExit : Call → Bool
  | Call.exit _ => true
  | _ => false

/-- A run in which the launcher is the second device on the bus, no kernel
driver is bound, every call succeeds and the user presses `q` at once. -/
def quitEnv : Env :=
  { initRet := 0, ctxPtr := 1, getDeviceListRet := 2,
    deviceList := [⟨0x1d6b, 0x0002⟩, ⟨0x2123, 0x1010⟩],
    openRet := 0, handlePtr := 7, kernelDriverActiveRet := 0, detachRet := 0,
    claimRet := 0, teardown := ⟨0, 0⟩, input := [113] }

/-- The globals when `main` calls `cleanup(0)` in the run `quitEnv`. -/
def acquired : Session :=
  { attached := 0, claimed := 1, ctx := some 1, devices := none, handle := some 7 }

/-- A run in which the kernel driver is detached, the interface claim fails
and the reattach during teardown fails too. -/
def claimFailEnv : Env :=
  { quitEnv with kernelDriverActiveRet := 1, claimRet := -6, teardown := ⟨0, -1⟩ }

/-- The globals when `main` calls `cleanup(5)` in the run `claimFailEnv`. -/
def detached : Session :=
  { attached := 1, claimed := 0, ctx := some 1, devices := none, handle := some 7 }

/-- The same teardown steps listed in the reverse of the order in which `main`
acquires the resources (context, device list, handle, driver detach, interface
claim), each paired with the flag that selects it. -/
def reverseAcquisitionOrder (s : Session) : List (Bool × Call) :=
  [ (decide (s.claimed ≠ 0), Call.releaseInterface s.handle 0),
    (decide (s.attached ≠ 0), Call.attachKernelDriver s.handle 0),
    (s.handle.isSome, Call.close s.handle),
    (s.devices.isSome, Call.freeDeviceList s.devices),
    (s.ctx.isSome, Call.exit s.ctx) ]

/-- The globals with which some run of `main` returns. -/
def MainReaches (s : Session) : Prop :=
  ∃ e fuel r, main e fuel = some r ∧ r.session = s

/-- Delivery of SIGINT between two passes of the input loop.  Line 139
installed `handler` for it, so the handler runs on the current globals; a
handler that returns resumes the interrupted code, here the loop, which goes on
with the globals the handler left. -/
def sigintInLoop (fuel : Nat) (s : Session) (t : Teardown) (cmd : Int) (input : List Nat) :
    Option Result :=
  let h := handler s t
  (inputLoop fuel h.1 t cmd input).map (Result.after h.2)

/-- A run in which the context is initialised and the enumeration fails. -/
def enumFailEnv : Env :=
  { quitEnv with getDeviceListRet := -11 }

/-- The globals when `main` returns in the run `enumFailEnv`. -/
def initialised : Session :=
  { attached := 0, claimed := 0, ctx := some 1, devices := none, handle := none }

/-- A run like `quitEnv` in which the terminal delivers a NUL byte. -/
def nulEnv : Env :=
  { quitEnv with input := [0] }

/-- A run like `quitEnv` in which the terminal is at end-of-input. -/
def eofEnv : Env :=
  { quitEnv with input := [] }

/-- A run in which a kernel driver is active and the detach call fails. -/
def detachFailEnv : Env :=
  { quitEnv with kernelDriverActiveRet := 1, detachRet := -5 }

/-- The calls `main` makes in the run `quitEnv` up to the input loop. -/
def acquireTrace : List Call :=
  [Call.signal, Call.init, Call.getDeviceList (some 1), Call.getDeviceDescriptor 0,
   Call.getDeviceDescriptor 1, Call.openDevice 1,
   Call.freeDeviceList (some quitEnv.deviceList), Call.kernelDriverActive (some 7) 0,
   Call.claimInterface (some 7) 0, Call.printf Msg.usageArrows,
   Call.printf Msg.usageKeys]

/-- A run in which the driver is detached, the interface claimed, the user
quits at once and the interface release of the teardown fails. -/
def releaseFailEnv : Env :=
  { quitEnv with kernelDriverActiveRet := 1, teardown := ⟨-1, 0⟩ }

/-- The globals when `main` calls `cleanup(0)` in the run `releaseFailEnv`. -/
def detachedClaimed : Session :=
  { attached := 1, claimed := 1, ctx := some 1, devices := none, handle := some 7 }

/-- The user quits with the key number `n` (counting from 0): the first `n`
decoded keys are neither 0 nor `q`, and the next decoded key is `q`. -/
def quitsAfter : Nat → List Nat → Bool
  | 0, input => decide ((get input).1 = 113)
  | n + 1, input =>
    decide ((get input).1 ≠ 0) && decide ((get input).1 ≠ 113) && quitsAfter n (get input).2

/-! ## Properties of `cleanup` -/

/-- `cleanup` leaves the globals as they were. -/
theorem cleanup_session (err : Int) (s : Session) (t : Teardown) :
    (cleanup err s t).session = s := by
  unfold cleanup
  dsimp only
  split_ifs <;> rfl

/-- The status `cleanup` returns, by cases on which teardown call failed. -/
theorem cleanup_ret (err : Int) (s : Session) (t : Teardown) :
    (cleanup err s t).ret =
      if s.claimed ≠ 0 ∧ t.releaseRet ≠ 0 then (if err ≠ 0 then err else 6)
      else if s.attached ≠ 0 ∧ t.attachRet ≠ 0 then (if err ≠ 0 then err else 7)
      else err := by
  unfold cleanup
  dsimp only
  split_ifs <;> rfl

/-- Claim C1, the code at the failing input: in the run `quitEnv` the quit key
makes `main` return through `cleanup(0)` with every teardown call successful,
and after that call the globals still read `claimed = 1`, `handle` non-null and
`ctx` non-null, although the interface was released, the handle closed and the
context exited. -/
theorem cleanup_leaves_flags_set :
    main quitEnv 1 = some ((cleanup 0 acquired quitEnv.teardown).after
      [Call.signal, Call.init, Call.getDeviceList (some 1), Call.getDeviceDescriptor 0,
       Call.getDeviceDescriptor 1, Call.openDevice 1,
       Call.freeDeviceList (some quitEnv.deviceList), Call.kernelDriverActive (some 7) 0,
       Call.claimInterface (some 7) 0, Call.printf Msg.usageArrows,
       Call.printf Msg.usageKeys]) ∧
    (cleanup 0 acquired quitEnv.teardown).trace =
      [Call.releaseInterface (some 7) 0, Call.close (some 7), Call.exit (some 1)] ∧
    (cleanup 0 acquired quitEnv.teardown).session.claimed = 1 ∧
    (cleanup 0 acquired quitEnv.teardown).session.handle = some 7 ∧
    (cleanup 0 acquired quitEnv.teardown).session.ctx = some 1 := by
  decide

/-- Claim C2, the code at the failing input: from the globals of the run
`quitEnv`, a second `cleanup(0)` right after the first one repeats the release,
close and exit calls on the resources the first call already gave back,
and its trace is non-empty whatever the teardown results of the two calls are;
when the repeated release reports an error the second call returns 6. -/
theorem cleanup_twice_repeats_teardown :
    (cleanup 0 (cleanup 0 acquired ⟨0, 0⟩).session ⟨0, 0⟩).trace =
      [Call.releaseInterface (some 7) 0, Call.close (some 7), Call.exit (some 1)] ∧
    (∀ t1 t2 : Teardown, (cleanup 0 (cleanup 0 acquired t1).session t2).trace ≠ []) ∧
    (cleanup 0 (cleanup 0 acquired ⟨0, 0⟩).session ⟨-4, 0⟩).ret = 6 := by
  refine ⟨by decide, ?_, by decide⟩
  intro t1 t2
  rw [cleanup_session]
  unfold cleanup
  dsimp only
  split_ifs <;> simp_all [acquired]

/-- The input loop never assigns a global. -/
theorem inputLoop_session (fuel : Nat) (s : Session) (t : Teardown) :
    ∀ (cmd : Int) (input : List Nat) (r : Result),
      inputLoop fuel s t cmd input = some r → r.session = s := by
  induction fuel with
  | zero => intro cmd input r h; simp [inputLoop] at h
  | succ n ih =>
    intro cmd input r h
    rw [inputLoop] at h
    split_ifs at h with h0
    · simp only [Option.some.injEq] at h
      rw [← h]
    · split at h
      · simp only [Option.map_eq_some'] at h
        obtain ⟨r0, hr0, hr⟩ := h
        rw [← hr]
        exact ih _ _ r0 hr0
      · simp only [Option.some.injEq] at h
        rw [← h, cleanup_session]
      · simp only [Option.map_eq_some'] at h
        obtain ⟨r0, hr0, hr⟩ := h
        rw [← hr]
        exact ih _ _ r0 hr0

/-- From the interface claim on, `devices` is not assigned. -/
theorem mainClaim_devices (e : Env) (fuel : Nat) (s : Session) (pre : List Call) (r : Result)
    (h : mainClaim e fuel s pre = some r) : r.session.devices = s.devices := by
  unfold mainClaim at h
  dsimp only at h
  split_ifs at h
  · simp only [Option.some.injEq] at h
    rw [← h]
    simp [Result.after, cleanup_session]
  · simp only [Option.map_eq_some'] at h
    obtain ⟨r0, hr0, hr⟩ := h
    rw [← hr]
    simp [Result.after, inputLoop_session _ _ _ _ _ _ hr0]

/-- From the kernel-driver query on, `devices` is not assigned. -/
theorem mainDriver_devices (e : Env) (fuel : Nat) (s : Session) (r : Result)
    (h : mainDriver e fuel s = some r) : r.session.devices = s.devices := by
  unfold mainDriver at h
  dsimp only at h
  split_ifs at h
  · exact mainClaim_devices e fuel s _ r h
  · simp only [Option.some.injEq] at h
    rw [← h]
    simp [Result.after, cleanup_session]
  · have h3 := mainClaim_devices e fuel _ _ r h
    exact h3
  · simp only [Option.some.injEq] at h
    rw [← h]
    simp [Result.after, cleanup_session]

/-- Whenever `main` returns with the device list still held, nothing acquired
after the enumeration is held: no handle, no detached driver, no claim. -/
theorem mainReaches_devices (s : Session) (h : MainReaches s) (hd : s.devices.isSome = true) :
    s.claimed = 0 ∧ s.attached = 0 ∧ s.handle = none := by
  obtain ⟨e, fuel, r, hmain, rfl⟩ := h
  unfold main at hmain
  dsimp only at hmain
  by_cases hl : e.getDeviceListRet < 0
  · rw [if_pos hl] at hmain
    simp only [Option.some.injEq] at hmain
    rw [← hmain] at hd
    simp at hd
  · rw [if_neg hl] at hmain
    cases hf : (scan e.deviceList 0).2 with
    | none =>
      simp only [hf, Option.some.injEq] at hmain
      rw [← hmain]
      simp [Result.after, cleanup_session]
    | some i =>
      simp only [hf] at hmain
      by_cases ho : e.openRet ≠ 0
      · rw [if_pos ho] at hmain
        simp only [Option.some.injEq] at hmain
        rw [← hmain]
        simp [Result.after, cleanup_session]
      · rw [if_neg ho] at hmain
        simp only [Option.map_eq_some'] at hmain
        obtain ⟨r0, hr0, hr⟩ := hmain
        have hdev := mainDriver_devices e fuel _ r0 hr0
        rw [← hr] at hd
        simp [Result.after, hdev] at hd

/-- Claim C3: when the teardown calls that are made succeed, the calls of
`cleanup` are exactly the entries of `[free device list, release interface 0,
reattach kernel driver, close handle, exit context]` selected by (`devices`
non-null, `claimed`, `attached`, `handle` non-null, `ctx` non-null), in that
order, no call occurs twice and `err` is returned; for globals with which a run
of `main` returns this is also the reverse of the order of acquisition. -/
theorem cleanup_trace_is_selected_teardown (err : Int) (s : Session) (t : Teardown)
    (hrel : s.claimed ≠ 0 → t.releaseRet = 0)
    (hatt : s.attached ≠ 0 → t.attachRet = 0) :
    (cleanup err s t).trace = selectedTeardown s ∧
    (cleanup err s t).trace.Nodup ∧
    (cleanup err s t).ret = err ∧
    (MainReaches s →
      (cleanup err s t).trace =
        ((reverseAcquisitionOrder s).filter (fun p => p.1)).map (fun p => p.2)) := by
  have hsel : (selectedTeardown s).Nodup := by
    unfold selectedTeardown teardownOrder
    simp only [List.filter]
    split <;> split <;> split <;> split <;> split <;> simp
  have h1 : ¬ (s.claimed ≠ 0 ∧ t.releaseRet ≠ 0) := fun h => h.2 (hrel h.1)
  have h2 : ¬ (s.attached ≠ 0 ∧ t.attachRet ≠ 0) := fun h => h.2 (hatt h.1)
  have htr : (cleanup err s t).trace = selectedTeardown s := by
    unfold cleanup selectedTeardown teardownOrder
    simp only [h1, h2, if_false, List.filter]
    by_cases hd : s.devices.isSome <;> by_cases hc : s.claimed = 0 <;>
      by_cases ha : s.attached = 0 <;> by_cases hh : s.handle.isSome <;>
      by_cases hx : s.ctx.isSome <;> simp [hd, hc, ha, hh, hx]
  refine ⟨htr, htr ▸ hsel, ?_, ?_⟩
  · rw [cleanup_ret, if_neg h1, if_neg h2]
  · intro hreach
    rw [htr]
    unfold selectedTeardown teardownOrder reverseAcquisitionOrder
    by_cases hd : s.devices.isSome = true
    · obtain ⟨hc, ha, hh⟩ := mainReaches_devices s hreach hd
      by_cases hx : s.ctx.isSome <;> simp [List.filter, hd, hc, ha, hh, hx]
    · by_cases hc : s.claimed = 0 <;> by_cases ha : s.attached = 0 <;>
        by_cases hh : s.handle.isSome <;> by_cases hx : s.ctx.isSome <;>
        simp [List.filter, hd, hc, ha, hh, hx]

/-- Witness of `cleanup_trace_is_selected_teardown` at the globals of the run
`quitEnv`. -/
theorem cleanup_trace_is_selected_teardown_witness :
    (acquired.claimed ≠ 0 → (0 : Int) = 0) ∧
    (cleanup 0 acquired ⟨0, 0⟩).trace = selectedTeardown acquired ∧
    (cleanup 0 acquired ⟨0, 0⟩).trace.Nodup ∧
    (cleanup 0 acquired ⟨0, 0⟩).ret = 0 ∧
    (MainReaches acquired →
      (cleanup 0 acquired ⟨0, 0⟩).trace =
        ((reverseAcquisitionOrder acquired).filter (fun p => p.1)).map (fun p => p.2)) :=
  ⟨fun _ => rfl,
    cleanup_trace_is_selected_teardown 0 acquired ⟨0, 0⟩ (fun _ => rfl) (fun _ => rfl)⟩

/-! ## The command table and the input loop -/

/-- One pass of the loop for a key whose `switch` case assigns `cmd := c`: the
transfer is issued and the loop goes on with `c`. -/
theorem inputLoop_send (fuel : Nat) (s : Session) (t : Teardown) (cmd c : Int)
    (input : List Nat) (hk : (get input).1 ≠ 0)
    (hs : keySwitch cmd (get input).1 = Step.send c) :
    inputLoop (fuel + 1) s t cmd input =
      (inputLoop fuel s t c (get input).2).map (Result.after [transfer s c]) := by
  rw [inputLoop]
  simp only [hk, if_false, hs]

/-- The commands the `switch` can assign are the six of the table. -/
theorem keySwitch_send_range (cmd ret c : Int) (hs : keySwitch cmd ret = Step.send c) :
    c ∈ [CMD_UP, CMD_DOWN, CMD_LEFT, CMD_RIGHT, CMD_STOP, CMD_FIRE] := by
  unfold keySwitch at hs
  split_ifs at hs <;> simp only [Step.send.injEq, reduceCtorEq] at hs <;> subst hs <;> simp

/-- Claim C4: whenever a pass of the input loop issues the control transfer for
the command `c` its `switch` selected, `c` is one of the six commands and the
transfer carries row `c` of `cmds` with length 8, value 0 and index 0 (when the
rest of the run returns, the run returns with that transfer first); each of
the six commands is selected by some key; and the six rows of `cmds` are
pairwise distinct, 8 bytes long, start with 0x02 and have a one-bit second
byte. -/
theorem transfer_carries_table_row (fuel : Nat) (s : Session) (t : Teardown) (cmd c : Int)
    (input : List Nat) (hk : (get input).1 ≠ 0)
    (hs : keySwitch cmd (get input).1 = Step.send c) :
    (∃ row, 0 ≤ c ∧ c ≤ 5 ∧ cmds.get? c.toNat = some row ∧
      inputLoop (fuel + 1) s t cmd input =
        (inputLoop fuel s t c (get input).2).map
          (Result.after [Call.controlTransfer s.handle REQUESTTYPE REQUEST 0 0 (some row) 8 0]) ∧
      (∀ r0 : Result, inputLoop fuel s t c (get input).2 = some r0 →
        inputLoop (fuel + 1) s t cmd input = some
          { session := r0.session
            trace := Call.controlTransfer s.handle REQUESTTYPE REQUEST 0 0 (some row) 8 0
              :: r0.trace
            ret := r0.ret })) ∧
    (∀ c0 ∈ [CMD_UP, CMD_DOWN, CMD_LEFT, CMD_RIGHT, CMD_STOP, CMD_FIRE],
      ∃ cmd0 key, key ≠ 0 ∧ keySwitch cmd0 key = Step.send c0) ∧
    cmds.length = 6 ∧ cmds.Nodup ∧
    (∀ row ∈ cmds, row.length = 8 ∧ row.get? 0 = some 0x02 ∧
      ∃ k, k < 8 ∧ row.get? 1 = some (2 ^ k)) := by
  refine ⟨?_, ?_, by decide, by decide, ?_⟩
  · have hloop := inputLoop_send fuel s t cmd c input hk hs
    have hc := keySwitch_send_range cmd (get input).1 c hs
    simp only [List.mem_cons, List.mem_singleton, List.not_mem_nil, or_false] at hc
    rcases hc with h | h | h | h | h | h <;> subst h <;>
      exact ⟨_, by decide, by decide, rfl, hloop, fun r0 h0 => by rw [hloop, h0]; rfl⟩
  · intro c0 hc0
    simp only [List.mem_cons, List.mem_singleton, List.not_mem_nil, or_false] at hc0
    rcases hc0 with h | h | h | h | h | h <;> subst h
    · exact ⟨-1, 65, by decide, by decide⟩
    · exact ⟨-1, 66, by decide, by decide⟩
    · exact ⟨-1, 68, by decide, by decide⟩
    · exact ⟨-1, 67, by decide, by decide⟩
    · exact ⟨-1, 32, by decide, by decide⟩
    · exact ⟨-1, 10, by decide, by decide⟩
  · intro row hrow
    simp only [cmds, List.mem_cons, List.mem_singleton, List.not_mem_nil, or_false] at hrow
    rcases hrow with h | h | h | h | h | h <;> subst h
    · exact ⟨rfl, rfl, 1, by decide, rfl⟩
    · exact ⟨rfl, rfl, 0, by decide, rfl⟩
    · exact ⟨rfl, rfl, 2, by decide, rfl⟩
    · exact ⟨rfl, rfl, 3, by decide, rfl⟩
    · exact ⟨rfl, rfl, 5, by decide, rfl⟩
    · exact ⟨rfl, rfl, 4, by decide, rfl⟩

/-- Witness of `transfer_carries_table_row`: in the session `acquired` the up
arrow is pressed first and then `q`; the run returns, and its first call is the
transfer of row 0 of `cmds`, followed by the teardown. -/
theorem transfer_carries_table_row_witness :
    (get [27, 91, 65, 113]).1 ≠ 0 ∧
    keySwitch (-1) (get [27, 91, 65, 113]).1 = Step.send CMD_UP ∧
    inputLoop 1 acquired ⟨0, 0⟩ CMD_UP (get [27, 91, 65, 113]).2 =
      some (cleanup 0 acquired ⟨0, 0⟩) ∧
    inputLoop (1 + 1) acquired ⟨0, 0⟩ (-1) [27, 91, 65, 113] = some
      { session := acquired
        trace := [Call.controlTransfer (some 7) REQUESTTYPE REQUEST 0 0
                    (some [0x02, 0x02, 0x00, 0x00, 0x00, 0x00, 0x00, 0x00]) 8 0,
                  Call.releaseInterface (some 7) 0, Call.close (some 7), Call.exit (some 1)]
        ret := 0 } ∧
    cmds.length = 6 ∧ cmds.Nodup := by
  obtain ⟨⟨row, _, _, hrow, _, hrun⟩, _, hlen, hnodup, _⟩ :=
    transfer_carries_table_row 1 acquired ⟨0, 0⟩ (-1) CMD_UP [27, 91, 65, 113]
      (by decide) (by decide)
  have hrow0 : cmds.get? CMD_UP.toNat = some [0x02, 0x02, 0x00, 0x00, 0x00, 0x00, 0x00, 0x00] :=
    rfl
  have hr : row = [0x02, 0x02, 0x00, 0x00, 0x00, 0x00, 0x00, 0x00] := by
    rw [hrow0] at hrow
    exact (Option.some.inj hrow).symm
  subst hr
  refine ⟨by decide, by decide, by decide, ?_, hlen, hnodup⟩
  rw [hrun (cleanup 0 acquired ⟨0, 0⟩) (by decide)]
  decide

/-- Claim C5, the toggle law: with a directional command `d` active and the
next decoded key that of a directional command `e`, the loop issues STOP and goes
on with no active directional command when `e = d` (from where the key of `d`
selects `d` again), and issues `e` and goes on with `e` active when `e ≠ d`. -/
theorem toggle_law (d e : Int) (hd : d ∈ directional) (he : e ∈ directional)
    (fuel : Nat) (s : Session) (t : Teardown) (input : List Nat)
    (hkey : (get input).1 = dirKey e) :
    (e = d →
      inputLoop (fuel + 1) s t d input =
        (inputLoop fuel s t CMD_STOP (get input).2).map (Result.after [transfer s CMD_STOP]) ∧
      inputState CMD_STOP = none ∧
      keySwitch CMD_STOP (dirKey d) = Step.send d) ∧
    (e ≠ d →
      inputLoop (fuel + 1) s t d input =
        (inputLoop fuel s t e (get input).2).map (Result.after [transfer s e]) ∧
      inputState e = some e) := by
  have hk : (get input).1 ≠ 0 := by
    rw [hkey]
    simp only [directional, List.mem_cons, List.mem_singleton, List.not_mem_nil, or_false] at he
    rcases he with h | h | h | h <;> subst h <;> decide
  simp only [directional, List.mem_cons, List.mem_singleton, List.not_mem_nil, or_false] at hd he
  constructor
  · intro hed
    subst hed
    refine ⟨inputLoop_send fuel s t e CMD_STOP input hk ?_, by decide, ?_⟩
    · rw [hkey]
      rcases he with h | h | h | h <;> subst h <;> decide
    · rcases he with h | h | h | h <;> subst h <;> decide
  · intro hed
    refine ⟨inputLoop_send fuel s t d e input hk ?_, ?_⟩
    · rw [hkey]
      rcases hd with h | h | h | h <;> rcases he with h2 | h2 | h2 | h2 <;> subst h <;> subst h2 <;>
        first | exact absurd rfl hed | decide
    · rcases he with h | h | h | h <;> subst h <;> decide

/-- Witness of `toggle_law`, both branches at runs that return: with up active,
the up arrow and then `q` send STOP before the teardown, and the key of up then
selects UP again; with up active, the left arrow and then `q` send LEFT before
the teardown. -/
theorem toggle_law_witness :
    (CMD_UP ∈ directional ∧ CMD_LEFT ∈ directional ∧
      (get [27, 91, 65, 113]).1 = dirKey CMD_UP ∧
      (get [27, 91, 68, 113]).1 = dirKey CMD_LEFT ∧ CMD_LEFT ≠ CMD_UP) ∧
    inputLoop (1 + 1) acquired ⟨0, 0⟩ CMD_UP [27, 91, 65, 113] = some
      { session := acquired
        trace := [Call.controlTransfer (some 7) REQUESTTYPE REQUEST 0 0
                    (some [0x02, 0x20, 0x00, 0x00, 0x00, 0x00, 0x00, 0x00]) 8 0,
                  Call.releaseInterface (some 7) 0, Call.close (some 7), Call.exit (some 1)]
        ret := 0 } ∧
    inputState CMD_STOP = none ∧
    keySwitch CMD_STOP (dirKey CMD_UP) = Step.send CMD_UP ∧
    inputLoop (1 + 1) acquired ⟨0, 0⟩ CMD_UP [27, 91, 68, 113] = some
      { session := acquired
        trace := [Call.controlTransfer (some 7) REQUESTTYPE REQUEST 0 0
                    (some [0x02, 0x04, 0x00, 0x00, 0x00, 0x00, 0x00, 0x00]) 8 0,
                  Call.releaseInterface (some 7) 0, Call.close (some 7), Call.exit (some 1)]
        ret := 0 } ∧
    inputState CMD_LEFT = some CMD_LEFT := by
  have hsame := (toggle_law CMD_UP CMD_UP (by decide) (by decide) 1 acquired ⟨0, 0⟩
    [27, 91, 65, 113] (by decide)).1 rfl
  have hother := (toggle_law CMD_UP CMD_LEFT (by decide) (by decide) 1 acquired ⟨0, 0⟩
    [27, 91, 68, 113] (by decide)).2 (by decide)
  refine ⟨by decide, ?_, hsame.2.1, hsame.2.2, ?_, hother.2⟩
  · rw [hsame.1]
    decide
  · rw [hother.1]
    decide

/-- Claim C6 as stated fails: for the bytes ESC, 'A' the decoder returns 'A'
(65), not the ESC code 27. -/
theorem get_esc_then_other_not_esc :
    ¬ (∀ b : Nat, b < 256 → b ≠ 91 → (get [27, b]).1 = 27) := by
  intro h
  exact absurd (h 65 (by decide) (by decide)) (by decide)

/-- Claim C6, amended: for every byte `b` other than '[' the decoder applied
to ESC, `b` consumes both bytes and returns `b`, the byte that follows ESC. -/
theorem get_esc_then_other (b : Nat) (rest : List Nat) (hb : b ≠ 91) :
    get (27 :: b :: rest) = (Int.ofNat b, rest) := by
  have hb2 : ¬ ((b : Int) = 91) := by omega
  simp [get, getch, hb2]

/-- Witness of `get_esc_then_other`: ESC followed by 'A'. -/
theorem get_esc_then_other_witness :
    (65 : Nat) ≠ 91 ∧ get (27 :: 65 :: [113]) = (Int.ofNat 65, [113]) :=
  ⟨by decide, get_esc_then_other 65 [113] (by decide)⟩

/-- The function `cleanup` issues no control transfer. -/
theorem cleanup_no_transfer (err : Int) (s : Session) (t : Teardown) :
    (cleanup err s t).trace.countP Call.isControlTransfer = 0 := by
  unfold cleanup
  dsimp only
  split_ifs <;> simp [List.countP_append, List.countP_cons, Call.isControlTransfer]

/-- Claim C7: each of ESC '[' 'A', ESC '[' 'B', ESC '[' 'C', ESC '[' 'D' is
decoded as one key that consumes three bytes, and with no command active
(`cmd = -1`) the loop issues UP, DOWN, RIGHT, LEFT for them; the byte 0x0a
issues FIRE, the space byte issues STOP, and the byte 'q' leaves `main` through
`cleanup(0)`, which issues no transfer. -/
theorem keys_from_initial_state (fuel : Nat) (s : Session) (t : Teardown) (rest : List Nat) :
    get (27 :: 91 :: 65 :: rest) = (65, rest) ∧
    get (27 :: 91 :: 66 :: rest) = (66, rest) ∧
    get (27 :: 91 :: 67 :: rest) = (67, rest) ∧
    get (27 :: 91 :: 68 :: rest) = (68, rest) ∧
    inputLoop (fuel + 1) s t (-1) (27 :: 91 :: 65 :: rest) =
      (inputLoop fuel s t CMD_UP rest).map (Result.after [transfer s CMD_UP]) ∧
    inputLoop (fuel + 1) s t (-1) (27 :: 91 :: 66 :: rest) =
      (inputLoop fuel s t CMD_DOWN rest).map (Result.after [transfer s CMD_DOWN]) ∧
    inputLoop (fuel + 1) s t (-1) (27 :: 91 :: 67 :: rest) =
      (inputLoop fuel s t CMD_RIGHT rest).map (Result.after [transfer s CMD_RIGHT]) ∧
    inputLoop (fuel + 1) s t (-1) (27 :: 91 :: 68 :: rest) =
      (inputLoop fuel s t CMD_LEFT rest).map (Result.after [transfer s CMD_LEFT]) ∧
    inputLoop (fuel + 1) s t (-1) (10 :: rest) =
      (inputLoop fuel s t CMD_FIRE rest).map (Result.after [transfer s CMD_FIRE]) ∧
    inputLoop (fuel + 1) s t (-1) (32 :: rest) =
      (inputLoop fuel s t CMD_STOP rest).map (Result.after [transfer s CMD_STOP]) ∧
    inputLoop (fuel + 1) s t (-1) (113 :: rest) = some (cleanup 0 s t) ∧
    (cleanup 0 s t).trace.countP Call.isControlTransfer = 0 := by
  refine ⟨rfl, rfl, rfl, rfl, ?_, ?_, ?_, ?_, ?_, ?_, ?_, cleanup_no_transfer 0 s t⟩
  · exact inputLoop_send fuel s t (-1) CMD_UP _ (show (65 : Int) ≠ 0 by decide)
      (show keySwitch (-1) 65 = Step.send CMD_UP by decide)
  · exact inputLoop_send fuel s t (-1) CMD_DOWN _ (show (66 : Int) ≠ 0 by decide)
      (show keySwitch (-1) 66 = Step.send CMD_DOWN by decide)
  · exact inputLoop_send fuel s t (-1) CMD_RIGHT _ (show (67 : Int) ≠ 0 by decide)
      (show keySwitch (-1) 67 = Step.send CMD_RIGHT by decide)
  · exact inputLoop_send fuel s t (-1) CMD_LEFT _ (show (68 : Int) ≠ 0 by decide)
      (show keySwitch (-1) 68 = Step.send CMD_LEFT by decide)
  · exact inputLoop_send fuel s t (-1) CMD_FIRE _ (show (10 : Int) ≠ 0 by decide)
      (show keySwitch (-1) 10 = Step.send CMD_FIRE by decide)
  · exact inputLoop_send fuel s t (-1) CMD_STOP _ (show (32 : Int) ≠ 0 by decide)
      (show keySwitch (-1) 32 = Step.send CMD_STOP by decide)
  · rw [inputLoop]
    have h1 : (get (113 :: rest)).1 = 113 := rfl
    simp only [h1]
    rfl

/-! ## Runs of `main` that end in `cleanup` -/

/-- The scan only reads descriptors. -/
theorem scan_trace_reads (l : List Descriptor) (i : Nat) :
    ∀ c ∈ (scan l i).1, ∃ k, c = Call.getDeviceDescriptor k := by
  induction l generalizing i with
  | nil => intro c hc; simp [scan] at hc
  | cons d ds ih =>
    intro c hc
    unfold scan at hc
    split_ifs at hc
    · simp only [List.mem_singleton] at hc
      exact ⟨i, hc⟩
    · simp only [List.mem_cons] at hc
      rcases hc with h | h
      · exact ⟨i, h⟩
      · exact ih (i + 1) c h

/-- A scan that meets no matching device reads every descriptor once, in
order, and stops at the terminating null entry. -/
theorem scan_no_match (l : List Descriptor) (i : Nat)
    (h : ∀ d ∈ l, ¬ (d.idVendor = VENDOR ∧ d.idProduct = PRODUCT)) :
    scan l i = ((List.range l.length).map (fun k => Call.getDeviceDescriptor (i + k)), none) := by
  induction l generalizing i with
  | nil => simp [scan]
  | cons d ds ih =>
    have hd := h d (List.mem_cons_self d ds)
    have hds : ∀ x ∈ ds, ¬ (x.idVendor = VENDOR ∧ x.idProduct = PRODUCT) :=
      fun x hx => h x (List.mem_cons_of_mem d hx)
    unfold scan
    rw [if_neg hd, ih (i + 1) hds]
    simp only [List.length_cons, List.range_succ_eq_map, List.map_cons, List.map_map,
      Nat.add_zero, Prod.mk.injEq, List.cons.injEq, true_and, and_true]
    apply List.map_congr_left
    intro k _
    simp only [Function.comp_apply, Nat.succ_eq_add_one]
    congr 1
    omega

/-- No call of a descriptor-reading trace is of another kind. -/
theorem countP_reads_eq_zero (p : Call → Bool) (tr : List Call)
    (hp : ∀ k, p (Call.getDeviceDescriptor k) = false)
    (htr : ∀ c ∈ tr, ∃ k, c = Call.getDeviceDescriptor k) :
    tr.countP p = 0 := by
  rw [List.countP_eq_zero]
  intro c hc
  obtain ⟨k, rfl⟩ := htr c hc
  simp [hp k]

/-- Claim C8: when the context was initialised, the enumeration succeeded and
no enumerated device has vendor id 0x2123 and product id 0x1010 (the list may
be empty), `main` returns 0 (for any fuel: the input loop is not reached) after
reading each descriptor, printing the not-found message, freeing the device
list once and exiting the context once; it makes no open, release-interface,
reattach or close call. -/
theorem device_not_found (e : Env) (fuel : Nat)
    (hinit : e.initRet = 0) (hlist : 0 ≤ e.getDeviceListRet)
    (hno : ∀ d ∈ e.deviceList, ¬ (d.idVendor = VENDOR ∧ d.idProduct = PRODUCT)) :
    ∃ r, main e fuel = some r ∧ r.ret = 0 ∧
      r.trace = [Call.signal, Call.init, Call.getDeviceList (some e.ctxPtr)]
        ++ (List.range e.deviceList.length).map (fun k => Call.getDeviceDescriptor k)
        ++ [Call.printf Msg.deviceNotFound, Call.freeDeviceList (some e.deviceList),
            Call.exit (some e.ctxPtr)] ∧
      r.trace.countP Call.isOpenDevice = 0 ∧
      r.trace.countP Call.isFreeDeviceList = 1 ∧
      r.trace.countP Call.isExit = 1 ∧
      r.trace.countP Call.isReleaseInterface = 0 ∧
      r.trace.countP Call.isAttachKernelDriver = 0 ∧
      r.trace.countP Call.isClose = 0 := by
  have hscan := scan_no_match e.deviceList 0 hno
  have hreads : ∀ c ∈ (List.range e.deviceList.length).map (fun k => Call.getDeviceDescriptor k),
      ∃ k, c = Call.getDeviceDescriptor k := by
    intro c hc
    simp only [List.mem_map] at hc
    obtain ⟨k, _, hk⟩ := hc
    exact ⟨k, hk.symm⟩
  have hmain : main e fuel = some
      { session := { attached := 0, claimed := 0, ctx := some e.ctxPtr,
                     devices := some e.deviceList, handle := none }
        trace := [Call.signal, Call.init, Call.getDeviceList (some e.ctxPtr)]
          ++ (List.range e.deviceList.length).map (fun k => Call.getDeviceDescriptor k)
          ++ [Call.printf Msg.deviceNotFound, Call.freeDeviceList (some e.deviceList),
              Call.exit (some e.ctxPtr)]
        ret := 0 } := by
    unfold main
    simp only [hinit, if_true, not_lt.mpr hlist, if_false, hscan, Nat.zero_add]
    simp [cleanup, Result.after]
  have c1 := countP_reads_eq_zero Call.isOpenDevice _ (fun _ => rfl) hreads
  have c2 := countP_reads_eq_zero Call.isFreeDeviceList _ (fun _ => rfl) hreads
  have c3 := countP_reads_eq_zero Call.isExit _ (fun _ => rfl) hreads
  have c4 := countP_reads_eq_zero Call.isReleaseInterface _ (fun _ => rfl) hreads
  have c5 := countP_reads_eq_zero Call.isAttachKernelDriver _ (fun _ => rfl) hreads
  have c6 := countP_reads_eq_zero Call.isClose _ (fun _ => rfl) hreads
  refine ⟨_, hmain, rfl, rfl, ?_, ?_, ?_, ?_, ?_, ?_⟩ <;>
    simp [List.countP_append, List.countP_cons, c1, c2, c3, c4, c5, c6, Call.isOpenDevice,
      Call.isFreeDeviceList, Call.isExit, Call.isReleaseInterface, Call.isAttachKernelDriver,
      Call.isClose]

/-- Witness of `device_not_found`: a bus with two other devices. -/
theorem device_not_found_witness :
    ∃ r, main { quitEnv with deviceList := [⟨0x1d6b, 0x0002⟩, ⟨0x2123, 0x1011⟩] } 0 = some r ∧
      r.ret = 0 ∧
      r.trace = [Call.signal, Call.init, Call.getDeviceList (some 1)]
        ++ (List.range 2).map (fun k => Call.getDeviceDescriptor k)
        ++ [Call.printf Msg.deviceNotFound,
            Call.freeDeviceList (some [⟨0x1d6b, 0x0002⟩, ⟨0x2123, 0x1011⟩]),
            Call.exit (some 1)] ∧
      r.trace.countP Call.isOpenDevice = 0 ∧
      r.trace.countP Call.isFreeDeviceList = 1 ∧
      r.trace.countP Call.isExit = 1 ∧
      r.trace.countP Call.isReleaseInterface = 0 ∧
      r.trace.countP Call.isAttachKernelDriver = 0 ∧
      r.trace.countP Call.isClose = 0 :=
  device_not_found { quitEnv with deviceList := [⟨0x1d6b, 0x0002⟩, ⟨0x2123, 0x1011⟩] } 0
    (by decide) (by decide) (by decide)

/-- Claim C9: when the device is found and opened, a kernel driver is active
and its detach succeeds, and the interface claim then fails, `main` returns 5
(for any fuel: the input loop is not reached); after the failed claim it calls
attach-kernel-driver, close and exit, once each and in that order (followed by
the reattach error message when the reattach fails), and it never calls
release-interface. -/
theorem claim_fails_after_detach (e : Env) (fuel : Nat) (i : Nat)
    (hinit : e.initRet = 0) (hlist : 0 ≤ e.getDeviceListRet)
    (hfound : (scan e.deviceList 0).2 = some i) (hopen : e.openRet = 0)
    (hactive : e.kernelDriverActiveRet = 1) (hdetach : e.detachRet = 0)
    (hclaim : e.claimRet ≠ 0) :
    ∃ r, main e fuel = some r ∧ r.ret = 5 ∧
      r.trace = [Call.signal, Call.init, Call.getDeviceList (some e.ctxPtr)]
        ++ (scan e.deviceList 0).1
        ++ [Call.openDevice i, Call.freeDeviceList (some e.deviceList),
            Call.kernelDriverActive (some e.handlePtr) 0,
            Call.detachKernelDriver (some e.handlePtr) 0,
            Call.claimInterface (some e.handlePtr) 0,
            Call.printf (Msg.failedClaim e.claimRet),
            Call.attachKernelDriver (some e.handlePtr) 0,
            Call.close (some e.handlePtr),
            Call.exit (some e.ctxPtr)]
        ++ (if e.teardown.attachRet ≠ 0
              then [Call.printf (Msg.failedReattach e.teardown.attachRet)] else []) ∧
      r.trace.countP Call.isAttachKernelDriver = 1 ∧
      r.trace.countP Call.isClose = 1 ∧
      r.trace.countP Call.isExit = 1 ∧
      r.trace.countP Call.isReleaseInterface = 0 := by
  have hreads := scan_trace_reads e.deviceList 0
  have hmain : main e fuel = some
      { session := { attached := 1, claimed := 0, ctx := some e.ctxPtr,
                     devices := none, handle := some e.handlePtr }
        trace := [Call.signal, Call.init, Call.getDeviceList (some e.ctxPtr)]
          ++ (scan e.deviceList 0).1
          ++ [Call.openDevice i, Call.freeDeviceList (some e.deviceList),
              Call.kernelDriverActive (some e.handlePtr) 0,
              Call.detachKernelDriver (some e.handlePtr) 0,
              Call.claimInterface (some e.handlePtr) 0,
              Call.printf (Msg.failedClaim e.claimRet),
              Call.attachKernelDriver (some e.handlePtr) 0,
              Call.close (some e.handlePtr),
              Call.exit (some e.ctxPtr)]
          ++ (if e.teardown.attachRet ≠ 0
                then [Call.printf (Msg.failedReattach e.teardown.attachRet)] else [])
        ret := 5 } := by
    unfold main
    simp only [hinit, if_true, not_lt.mpr hlist, if_false, hfound, hopen, ne_eq,
      not_true_eq_false]
    unfold mainDriver
    simp only [hactive, if_true, hdetach, ne_eq, not_true_eq_false, if_false]
    unfold mainClaim
    simp only [hclaim, ne_eq, not_false_eq_true, if_true]
    by_cases ha : e.teardown.attachRet = 0 <;> simp [cleanup, Result.after, ha]
  have c1 := countP_reads_eq_zero Call.isAttachKernelDriver _ (fun _ => rfl) hreads
  have c2 := countP_reads_eq_zero Call.isClose _ (fun _ => rfl) hreads
  have c3 := countP_reads_eq_zero Call.isExit _ (fun _ => rfl) hreads
  have c4 := countP_reads_eq_zero Call.isReleaseInterface _ (fun _ => rfl) hreads
  refine ⟨_, hmain, rfl, rfl, ?_, ?_, ?_, ?_⟩ <;>
    by_cases ha : e.teardown.attachRet = 0 <;>
    simp [List.countP_append, List.countP_cons, c1, c2, c3, c4, ha,
      Call.isReleaseInterface, Call.isAttachKernelDriver, Call.isClose, Call.isExit]

/-- Witness of `claim_fails_after_detach` in the run `claimFailEnv`. -/
theorem claim_fails_after_detach_witness :
    ∃ r, main claimFailEnv 0 = some r ∧ r.ret = 5 ∧
      r.trace = [Call.signal, Call.init, Call.getDeviceList (some claimFailEnv.ctxPtr)]
        ++ (scan claimFailEnv.deviceList 0).1
        ++ [Call.openDevice 1, Call.freeDeviceList (some claimFailEnv.deviceList),
            Call.kernelDriverActive (some claimFailEnv.handlePtr) 0,
            Call.detachKernelDriver (some claimFailEnv.handlePtr) 0,
            Call.claimInterface (some claimFailEnv.handlePtr) 0,
            Call.printf (Msg.failedClaim claimFailEnv.claimRet),
            Call.attachKernelDriver (some claimFailEnv.handlePtr) 0,
            Call.close (some claimFailEnv.handlePtr),
            Call.exit (some claimFailEnv.ctxPtr)]
        ++ (if claimFailEnv.teardown.attachRet ≠ 0
              then [Call.printf (Msg.failedReattach claimFailEnv.teardown.attachRet)] else []) ∧
      r.trace.countP Call.isAttachKernelDriver = 1 ∧
      r.trace.countP Call.isClose = 1 ∧
      r.trace.countP Call.isExit = 1 ∧
      r.trace.countP Call.isReleaseInterface = 0 :=
  claim_fails_after_detach claimFailEnv 0 1 (by decide) (by decide) (by decide) (by decide)
    (by decide) (by decide) (by decide)

/-! ## The status `cleanup` returns when a teardown step fails -/

/-- Claim C10 as stated fails: in the run `claimFailEnv` the claim fails after
a successful detach and the reattach of the teardown fails; `cleanup(5)` and
with it `main` return 5, the code of the failed claim, not the reattach code
7.  Hence the teardown codes do not take precedence over a non-zero `err`. -/
theorem teardown_code_does_not_override :
    (main claimFailEnv 0).map Result.ret = some 5 ∧
    (cleanup 5 detached ⟨0, -1⟩).ret = 5 ∧
    Call.attachKernelDriver (some 7) 0 ∈ (cleanup 5 detached ⟨0, -1⟩).trace ∧
    ¬ (∀ (err : Int) (s : Session) (t : Teardown), err ≠ 0 →
        (s.claimed ≠ 0 ∧ t.releaseRet ≠ 0 → (cleanup err s t).ret = 6) ∧
        (¬ (s.claimed ≠ 0 ∧ t.releaseRet ≠ 0) ∧ s.attached ≠ 0 ∧ t.attachRet ≠ 0 →
          (cleanup err s t).ret = 7)) := by
  refine ⟨by decide, by decide, by decide, ?_⟩
  intro h
  have h7 := (h 5 detached ⟨0, -1⟩ (by decide)).2 (by decide)
  exact absurd h7 (by decide)

/-- Claim C10, amended: when a teardown step of `cleanup(err)` fails, the
status returned is `err` whenever `err` is non-zero; the teardown codes are
returned only for `err = 0`: 6 when the interface release failed, 7 when the
release did not fail and the reattach failed. -/
theorem cleanup_status_on_teardown_failure (err : Int) (s : Session) (t : Teardown)
    (hfail : (s.claimed ≠ 0 ∧ t.releaseRet ≠ 0) ∨ (s.attached ≠ 0 ∧ t.attachRet ≠ 0)) :
    (err ≠ 0 → (cleanup err s t).ret = err) ∧
    (err = 0 → s.claimed ≠ 0 ∧ t.releaseRet ≠ 0 → (cleanup err s t).ret = 6) ∧
    (err = 0 → ¬ (s.claimed ≠ 0 ∧ t.releaseRet ≠ 0) → (cleanup err s t).ret = 7) := by
  refine ⟨?_, ?_, ?_⟩
  · intro herr
    rw [cleanup_ret]
    by_cases h1 : s.claimed ≠ 0 ∧ t.releaseRet ≠ 0
    · rw [if_pos h1, if_pos herr]
    · rw [if_neg h1, if_pos (hfail.resolve_left h1), if_pos herr]
  · intro herr h1
    rw [cleanup_ret, if_pos h1, if_neg (not_not.mpr herr)]
  · intro herr h1
    rw [cleanup_ret, if_neg h1, if_pos (hfail.resolve_left h1), if_neg (not_not.mpr herr)]

/-- Witness of `cleanup_status_on_teardown_failure`: the teardown of the run
`claimFailEnv`, where the reattach fails after the claim failed. -/
theorem cleanup_status_on_teardown_failure_witness :
    (detached.attached ≠ 0 ∧ (-1 : Int) ≠ 0) ∧ (cleanup 5 detached ⟨0, -1⟩).ret = 5 :=
  ⟨by decide,
    (cleanup_status_on_teardown_failure 5 detached ⟨0, -1⟩ (Or.inr (by decide))).1 (by decide)⟩

/-! ## Paths of `main` that leave resources behind -/

/-- While the interface is claimed, every `cleanup` call releases it. -/
theorem cleanup_releases_claimed (err : Int) (s : Session) (t : Teardown) (hc : s.claimed ≠ 0) :
    Call.releaseInterface s.handle 0 ∈ (cleanup err s t).trace := by
  unfold cleanup
  dsimp only
  split_ifs <;> simp

/-- While the context is held, every `cleanup` call exits it. -/
theorem cleanup_exits_ctx (err : Int) (s : Session) (t : Teardown) (hx : s.ctx.isSome = true) :
    Call.exit s.ctx ∈ (cleanup err s t).trace := by
  unfold cleanup
  dsimp only
  split_ifs <;> simp

/-- Claim C11, the code at the failing input: in the run `enumFailEnv` the
context is initialised and the enumeration fails; `main` returns 1 (for any
fuel) after printing the message, with `ctx` still held and without any
`libusb_exit` call. -/
theorem enumeration_failure_keeps_context :
    ∀ fuel : Nat,
      main enumFailEnv fuel = some
        { session := initialised
          trace := [Call.signal, Call.init, Call.getDeviceList (some 1),
                    Call.printf (Msg.failedGetDeviceList (-11))]
          ret := 1 } ∧
      ((main enumFailEnv fuel).map (fun r => r.trace.countP Call.isExit)) = some 0 := by
  intro fuel
  constructor <;> rfl

/-- Claim C12, the code at the failing inputs: in the run `nulEnv` the decoded
key 0 ends the loop and `main` returns 0 with the interface still claimed and
no call after the usage messages, although any `cleanup` call on these globals
would release the interface; in the run `enumFailEnv` it returns 1 with no call
after the error message, although any `cleanup` call would exit the context.
On both paths `cleanup` is not invoked. -/
theorem paths_without_cleanup :
    main nulEnv 1 = some { session := acquired, trace := acquireTrace, ret := 0 } ∧
    (∀ (err : Int) (t : Teardown),
      Call.releaseInterface (some 7) 0 ∈ (cleanup err acquired t).trace) ∧
    Call.releaseInterface (some 7) 0 ∉ acquireTrace ∧
    main enumFailEnv 0 = some
      { session := initialised
        trace := [Call.signal, Call.init, Call.getDeviceList (some 1),
                  Call.printf (Msg.failedGetDeviceList (-11))]
        ret := 1 } ∧
    (∀ (err : Int) (t : Teardown), Call.exit (some 1) ∈ (cleanup err initialised t).trace) := by
  refine ⟨by decide, ?_, by decide, by decide, ?_⟩
  · intro err t
    exact cleanup_releases_claimed err acquired t (by decide)
  · intro err t
    exact cleanup_exits_ctx err initialised t rfl

/-- Claim C13, the code at the failing input: SIGINT arrives in the session
`acquired` before the keys up and `q` are read.  The handler runs `cleanup(0)`
and returns with the globals unchanged; the loop then sends the UP transfer on
the closed handle and the quit key runs `cleanup(0)` a second time. -/
theorem sigint_returns_to_loop :
    handler acquired ⟨0, 0⟩ =
      (acquired, [Call.releaseInterface (some 7) 0, Call.close (some 7), Call.exit (some 1)]) ∧
    sigintInLoop 2 acquired ⟨0, 0⟩ (-1) [27, 91, 65, 113] = some
      { session := acquired
        trace := [Call.releaseInterface (some 7) 0, Call.close (some 7), Call.exit (some 1),
                  Call.controlTransfer (some 7) REQUESTTYPE REQUEST 0 0
                    (some [0x02, 0x02, 0x00, 0x00, 0x00, 0x00, 0x00, 0x00]) 8 0,
                  Call.releaseInterface (some 7) 0, Call.close (some 7), Call.exit (some 1)]
        ret := 0 } := by
  constructor <;> decide

/-! ## End of input -/

/-- At end-of-input every pass of the loop reads `EOF`, reports it as an
unrecognized key and starts over: no amount of fuel ends the loop. -/
theorem inputLoop_eof (fuel : Nat) (s : Session) (t : Teardown) :
    ∀ cmd : Int, inputLoop fuel s t cmd [] = none := by
  induction fuel with
  | zero => intro cmd; rfl
  | succ n ih =>
    intro cmd
    have hsw : keySwitch cmd (-1) = Step.unrecognized := by
      unfold keySwitch
      simp
    have hget : get [] = ((-1 : Int), ([] : List Nat)) := rfl
    rw [inputLoop]
    simp only [hget, hsw]
    rw [ih cmd]
    rfl

/-- Claim C16, the code at the failing input: at end-of-input `get()` yields
-1, which is not 0 and has no `case`, so the pass prints the unrecognized-key
message and the loop reads again; the loop does not end for any fuel, and the
run `eofEnv` of `main` never returns. -/
theorem eof_loops_forever :
    get [] = ((-1 : Int), ([] : List Nat)) ∧
    (∀ cmd : Int, keySwitch cmd (-1) = Step.unrecognized) ∧
    (∀ (fuel : Nat) (s : Session) (t : Teardown) (cmd : Int),
      inputLoop (fuel + 1) s t cmd [] =
        (inputLoop fuel s t cmd []).map (Result.after [Call.printf (Msg.unrecognizedKey (-1))])) ∧
    (∀ (fuel : Nat) (s : Session) (t : Teardown) (cmd : Int), inputLoop fuel s t cmd [] = none) ∧
    (∀ fuel : Nat, main eofEnv fuel = none) := by
  refine ⟨rfl, ?_, ?_, fun fuel s t cmd => inputLoop_eof fuel s t cmd, ?_⟩
  · intro cmd
    unfold keySwitch
    simp
  · intro fuel s t cmd
    rw [inputLoop_eof, inputLoop_eof]
    rfl
  · intro fuel
    simp [main, eofEnv, quitEnv, scan, VENDOR, PRODUCT, mainDriver, mainClaim, inputLoop_eof]

/-! ## The kernel-driver flag -/

/-- Claim C18, the code at the failing input: in the run `detachFailEnv` a
kernel driver is active and the detach call fails; `attached` was set to 1
before the call, so `cleanup(3)` runs with `attached = 1` and calls
attach-kernel-driver; `main` returns 3. -/
theorem detach_failure_still_reattaches :
    ∀ fuel : Nat,
      main detachFailEnv fuel = some
        { session := detached
          trace := [Call.signal, Call.init, Call.getDeviceList (some 1),
                    Call.getDeviceDescriptor 0, Call.getDeviceDescriptor 1, Call.openDevice 1,
                    Call.freeDeviceList (some quitEnv.deviceList),
                    Call.kernelDriverActive (some 7) 0, Call.detachKernelDriver (some 7) 0,
                    Call.printf (Msg.failedDetach (-5)),
                    Call.attachKernelDriver (some 7) 0, Call.close (some 7),
                    Call.exit (some 1)]
          ret := 3 } ∧
      detached.attached = 1 := by
  intro fuel
  constructor <;> rfl

/-- Claim C19 as stated fails: in the run `releaseFailEnv` the driver was
detached and the interface release of the teardown fails; `cleanup(0)` closes
the handle and exits the context without an attach-kernel-driver call, and
`main` returns 6. -/
theorem release_failure_skips_reattach :
    main releaseFailEnv 1 = some
      { session := detachedClaimed
        trace := [Call.signal, Call.init, Call.getDeviceList (some 1),
                  Call.getDeviceDescriptor 0, Call.getDeviceDescriptor 1, Call.openDevice 1,
                  Call.freeDeviceList (some quitEnv.deviceList),
                  Call.kernelDriverActive (some 7) 0, Call.detachKernelDriver (some 7) 0,
                  Call.claimInterface (some 7) 0, Call.printf Msg.usageArrows,
                  Call.printf Msg.usageKeys,
                  Call.releaseInterface (some 7) 0, Call.close (some 7), Call.exit (some 1),
                  Call.printf (Msg.failedRelease (-1))]
        ret := 6 } ∧
    detachedClaimed.attached ≠ 0 ∧
    (cleanup 0 detachedClaimed ⟨-1, 0⟩).trace.countP Call.isAttachKernelDriver = 0 ∧
    ¬ (∀ (err : Int) (s : Session) (t : Teardown), s.attached ≠ 0 →
        Call.attachKernelDriver s.handle 0 ∈ (cleanup err s t).trace) := by
  refine ⟨by decide, by decide, by decide, ?_⟩
  intro h
  exact absurd (h 0 detachedClaimed ⟨-1, 0⟩ (by decide)) (by decide)

/-- Claim C19, amended: when `cleanup` is invoked with `attached` set and the
interface release did not fail (nothing claimed, or the release returned 0),
it calls attach-kernel-driver and no close precedes that call, and it returns
`err`, or 7 when `err` is 0 and the reattach failed; when the release failed it
closes the handle and exits the context without any attach-kernel-driver call
and returns `err`, or the release-failure status 6 when `err` is 0. -/
theorem reattach_unless_release_failed (err : Int) (s : Session) (t : Teardown)
    (hatt : s.attached ≠ 0) :
    (¬ (s.claimed ≠ 0 ∧ t.releaseRet ≠ 0) →
      (∃ pre post, (cleanup err s t).trace = pre ++ Call.attachKernelDriver s.handle 0 :: post ∧
        pre.countP Call.isClose = 0) ∧
      (cleanup err s t).ret = if t.attachRet ≠ 0 ∧ err = 0 then 7 else err) ∧
    (s.claimed ≠ 0 ∧ t.releaseRet ≠ 0 →
      (cleanup err s t).trace.countP Call.isAttachKernelDriver = 0 ∧
      Call.close s.handle ∈ (cleanup err s t).trace ∧
      Call.exit s.ctx ∈ (cleanup err s t).trace ∧
      (cleanup err s t).ret = if err ≠ 0 then err else 6) := by
  constructor
  · intro hrel
    refine ⟨⟨(if s.devices.isSome = true then [Call.freeDeviceList s.devices] else [])
        ++ (if s.claimed ≠ 0 then [Call.releaseInterface s.handle 0] else []),
      (if t.attachRet ≠ 0
        then [Call.close s.handle, Call.exit s.ctx, Call.printf (Msg.failedReattach t.attachRet)]
        else (if s.handle.isSome = true then [Call.close s.handle] else [])
          ++ (if s.ctx.isSome = true then [Call.exit s.ctx] else [])), ?_, ?_⟩, ?_⟩
    · unfold cleanup
      dsimp only
      rw [if_neg hrel, if_pos hatt]
      by_cases hd : s.devices.isSome = true <;> by_cases hc : s.claimed = 0 <;>
        by_cases ha : t.attachRet = 0 <;> by_cases hh : s.handle.isSome = true <;>
        by_cases hx : s.ctx.isSome = true <;> simp [hd, hc, ha, hh, hx, hatt]
    · by_cases hd : s.devices.isSome = true <;> by_cases hc : s.claimed = 0 <;>
        simp [hd, hc, List.countP_cons, Call.isClose]
    · rw [cleanup_ret, if_neg hrel]
      by_cases ha : t.attachRet = 0 <;> by_cases he : err = 0 <;> simp [ha, he, hatt]
  · intro hrel
    refine ⟨?_, ?_, ?_, ?_⟩
    · unfold cleanup
      dsimp only
      rw [if_pos hrel, if_pos hrel.1]
      by_cases hd : s.devices.isSome = true <;>
        simp [hd, List.countP_cons, List.countP_append, Call.isAttachKernelDriver]
    · unfold cleanup
      dsimp only
      rw [if_pos hrel, if_pos hrel.1]
      simp
    · unfold cleanup
      dsimp only
      rw [if_pos hrel, if_pos hrel.1]
      simp
    · rw [cleanup_ret, if_pos hrel]

/-- Witness of `reattach_unless_release_failed`: the teardown of the run
`releaseFailEnv`, where the release fails, no reattach is tried and
`cleanup(0)` returns 6; and the teardown of the session `detached` with a
failing reattach, where `cleanup(0)` returns 7. -/
theorem reattach_unless_release_failed_witness :
    detachedClaimed.attached ≠ 0 ∧ (detachedClaimed.claimed ≠ 0 ∧ (-1 : Int) ≠ 0) ∧
    (cleanup 0 detachedClaimed ⟨-1, 0⟩).trace.countP Call.isAttachKernelDriver = 0 ∧
    Call.close detachedClaimed.handle ∈ (cleanup 0 detachedClaimed ⟨-1, 0⟩).trace ∧
    Call.exit detachedClaimed.ctx ∈ (cleanup 0 detachedClaimed ⟨-1, 0⟩).trace ∧
    (cleanup 0 detachedClaimed ⟨-1, 0⟩).ret = 6 ∧
    (cleanup 0 detached ⟨0, -1⟩).ret = 7 := by
  have h1 := (reattach_unless_release_failed 0 detachedClaimed ⟨-1, 0⟩ (by decide)).2
    (by decide)
  have h2 := ((reattach_unless_release_failed 0 detached ⟨0, -1⟩ (by decide)).1 (by decide)).2
  exact ⟨by decide, by decide, h1.1, h1.2.1, h1.2.2.1, h1.2.2.2, h2⟩

/-! ## Keys without a `case`, and the non-directional keys -/

/-- A decoded key that is not 0 and has no `case` label is reported and the
loop goes on with `cmd` as it was. -/
theorem inputLoop_unrecognized (fuel : Nat) (s : Session) (t : Teardown) (cmd : Int)
    (input : List Nat) (hk : (get input).1 ≠ 0)
    (hs : keySwitch cmd (get input).1 = Step.unrecognized) :
    inputLoop (fuel + 1) s t cmd input =
      (inputLoop fuel s t cmd (get input).2).map
        (Result.after [Call.printf (Msg.unrecognizedKey (get input).1)]) := by
  rw [inputLoop]
  simp only [hk, if_false, hs]

/-- Claim C15 as stated fails: the plain byte 'A', typed without an escape
prefix, is decoded as 65 like the up arrow, and the loop sends the UP transfer
for it. -/
theorem plain_letter_is_arrow :
    get [65] = ((65 : Int), ([] : List Nat)) ∧
    get [27, 91, 65] = ((65 : Int), ([] : List Nat)) ∧
    keySwitch (-1) 65 = Step.send CMD_UP ∧
    inputLoop 2 acquired ⟨0, 0⟩ (-1) [65, 113] = some
      { session := acquired
        trace := [Call.controlTransfer (some 7) REQUESTTYPE REQUEST 0 0
                    (some [0x02, 0x02, 0x00, 0x00, 0x00, 0x00, 0x00, 0x00]) 8 0,
                  Call.releaseInterface (some 7) 0, Call.close (some 7), Call.exit (some 1)]
        ret := 0 } := by
  refine ⟨rfl, rfl, ?_, ?_⟩ <;> decide

/-- Claim C15, amended: when the value `get()` returns is none of 0, 'A',
'B', 'C', 'D', 0x0a, space and 'q', the pass of the loop prints the
unrecognized-key message, issues no transfer, and the loop goes on with `cmd`
unchanged. -/
theorem other_keys_unrecognized (fuel : Nat) (s : Session) (t : Teardown) (cmd : Int)
    (input : List Nat) (hk : (get input).1 ∉ ([0, 65, 66, 67, 68, 10, 32, 113] : List Int)) :
    keySwitch cmd (get input).1 = Step.unrecognized ∧
    inputLoop (fuel + 1) s t cmd input =
      (inputLoop fuel s t cmd (get input).2).map
        (Result.after [Call.printf (Msg.unrecognizedKey (get input).1)]) := by
  simp only [List.mem_cons, List.mem_singleton, List.not_mem_nil, or_false, not_or] at hk
  obtain ⟨h0, h65, h66, h67, h68, h10, h32, h113⟩ := hk
  have hs : keySwitch cmd (get input).1 = Step.unrecognized := by
    unfold keySwitch
    simp only [h65, h66, h67, h68, h10, h32, h113, if_false]
  exact ⟨hs, inputLoop_unrecognized fuel s t cmd input h0 hs⟩

/-- Witness of `other_keys_unrecognized`: the key 'x' while up is active. -/
theorem other_keys_unrecognized_witness :
    (get [120, 113]).1 ∉ ([0, 65, 66, 67, 68, 10, 32, 113] : List Int) ∧
    keySwitch CMD_UP (get [120, 113]).1 = Step.unrecognized ∧
    inputLoop (1 + 1) acquired ⟨0, 0⟩ CMD_UP [120, 113] =
      (inputLoop 1 acquired ⟨0, 0⟩ CMD_UP (get [120, 113]).2).map
        (Result.after [Call.printf (Msg.unrecognizedKey (get [120, 113]).1)]) :=
  ⟨by decide, other_keys_unrecognized 1 acquired ⟨0, 0⟩ CMD_UP [120, 113] (by decide)⟩

/-- Claim C17 as stated fails: with up active, the fire key followed by the up
key sends FIRE and then UP, not STOP; the fire key replaced the active
command. -/
theorem fire_clears_active_direction :
    keySwitch CMD_UP 10 = Step.send CMD_FIRE ∧
    keySwitch CMD_FIRE (dirKey CMD_UP) = Step.send CMD_UP ∧
    keySwitch CMD_FIRE (dirKey CMD_UP) ≠ Step.send CMD_STOP ∧
    inputLoop 3 acquired ⟨0, 0⟩ CMD_UP [10, 27, 91, 65, 113] = some
      { session := acquired
        trace := [transfer acquired CMD_FIRE, transfer acquired CMD_UP,
                  Call.releaseInterface (some 7) 0, Call.close (some 7), Call.exit (some 1)]
        ret := 0 } := by
  refine ⟨?_, ?_, ?_, ?_⟩ <;> decide

/-- Claim C17, amended: for every value of `cmd` the fire key sends FIRE and
the space key sends STOP, never toggled; afterwards `cmd` holds FIRE or STOP, so
no directional command is active, and the key of any directional command `d`
then sends `d`. -/
theorem fire_and_stop_keys (fuel : Nat) (s : Session) (t : Teardown) (cmd : Int)
    (input : List Nat) (hk : (get input).1 = 10 ∨ (get input).1 = 32) :
    ((get input).1 = 10 →
      inputLoop (fuel + 1) s t cmd input =
        (inputLoop fuel s t CMD_FIRE (get input).2).map (Result.after [transfer s CMD_FIRE])) ∧
    ((get input).1 = 32 →
      inputLoop (fuel + 1) s t cmd input =
        (inputLoop fuel s t CMD_STOP (get input).2).map (Result.after [transfer s CMD_STOP])) ∧
    inputState CMD_FIRE = none ∧ inputState CMD_STOP = none ∧
    (∀ d ∈ directional,
      keySwitch CMD_FIRE (dirKey d) = Step.send d ∧ keySwitch CMD_STOP (dirKey d) = Step.send d) := by
  have hk0 : (get input).1 ≠ 0 := by
    rcases hk with h | h <;> rw [h] <;> decide
  refine ⟨?_, ?_, by decide, by decide, ?_⟩
  · intro h
    refine inputLoop_send fuel s t cmd CMD_FIRE input hk0 ?_
    rw [h]
    rfl
  · intro h
    refine inputLoop_send fuel s t cmd CMD_STOP input hk0 ?_
    rw [h]
    rfl
  · intro d hd
    simp only [directional, List.mem_cons, List.mem_singleton, List.not_mem_nil, or_false] at hd
    rcases hd with h | h | h | h <;> subst h <;> constructor <;> decide

/-- Witness of `fire_and_stop_keys`: the fire key while up is active. -/
theorem fire_and_stop_keys_witness :
    (get [10, 113]).1 = 10 ∧
    inputLoop (1 + 1) acquired ⟨0, 0⟩ CMD_UP [10, 113] =
      (inputLoop 1 acquired ⟨0, 0⟩ CMD_FIRE (get [10, 113]).2).map
        (Result.after [transfer acquired CMD_FIRE]) :=
  ⟨by decide,
    (fire_and_stop_keys 1 acquired ⟨0, 0⟩ CMD_UP [10, 113] (Or.inl (by decide))).1 (by decide)⟩

/-! ## The table index -/

/-- Each of the six commands has a row of 8 bytes in `cmds`. -/
theorem cmdsRow_of_command (c : Int)
    (hc : c ∈ [CMD_UP, CMD_DOWN, CMD_LEFT, CMD_RIGHT, CMD_STOP, CMD_FIRE]) :
    0 ≤ c ∧ c ≤ 5 ∧ ∃ row, cmdsRow c = some row ∧ row.length = 8 := by
  simp only [List.mem_cons, List.mem_singleton, List.not_mem_nil, or_false] at hc
  rcases hc with h | h | h | h | h | h <;> subst h <;>
    exact ⟨by decide, by decide, _, rfl, rfl⟩

/-- Every control transfer of a run of the loop that ends carries a row of
`cmds` selected by an index in 0..5. -/
theorem inputLoop_transfers (fuel : Nat) (s : Session) (t : Teardown) :
    ∀ (cmd : Int) (input : List Nat) (r : Result),
      inputLoop fuel s t cmd input = some r →
      ∀ call ∈ r.trace, call.isControlTransfer = true →
        ∃ c row, 0 ≤ c ∧ c ≤ 5 ∧ cmdsRow c = some row ∧ row.length = 8 ∧
          call = Call.controlTransfer s.handle REQUESTTYPE REQUEST VALUE INDEX (some row)
            LENGTH 0 := by
  induction fuel with
  | zero => intro cmd input r h; simp [inputLoop] at h
  | succ n ih =>
    intro cmd input r h call hcall htr
    rw [inputLoop] at h
    by_cases h0 : (get input).1 = 0
    · simp only [h0, if_true, Option.some.injEq] at h
      rw [← h] at hcall
      simp at hcall
    · simp only [h0, if_false] at h
      cases hsw : keySwitch cmd (get input).1 with
      | send c =>
        simp only [hsw, Option.map_eq_some'] at h
        obtain ⟨r0, hr0, hr⟩ := h
        rw [← hr] at hcall
        simp only [Result.after, List.singleton_append, List.mem_cons] at hcall
        rcases hcall with hc | hc
        · obtain ⟨hlo, hhi, row, hrow, hlen⟩ :=
            cmdsRow_of_command c (keySwitch_send_range cmd (get input).1 c hsw)
          refine ⟨c, row, hlo, hhi, hrow, hlen, ?_⟩
          rw [hc, transfer, hrow]
        · exact ih c (get input).2 r0 hr0 call hc htr
      | quit =>
        simp only [hsw, Option.some.injEq] at h
        rw [← h] at hcall
        have hnone := cleanup_no_transfer 0 s t
        rw [List.countP_eq_zero] at hnone
        exact absurd htr (hnone call hcall)
      | unrecognized =>
        simp only [hsw, Option.map_eq_some'] at h
        obtain ⟨r0, hr0, hr⟩ := h
        rw [← hr] at hcall
        simp only [Result.after, List.singleton_append, List.mem_cons] at hcall
        rcases hcall with hc | hc
        · rw [hc] at htr
          simp [Call.isControlTransfer] at htr
        · exact ih cmd (get input).2 r0 hr0 call hc htr

/-- Claim C20: in every run of the input loop that ends, whatever `cmd` holds
at the start (it is -1 in `main`) and whatever the keys are, each control
transfer carries `cmds[c]` for an index `c` in 0..5, never an out-of-range
access; and in any single pass, for any value of `cmd` before it, the index the
`switch` assigns before the transfer is in 0..5. -/
theorem transfer_index_in_range (fuel : Nat) (s : Session) (t : Teardown) (cmd : Int)
    (input : List Nat) (r : Result) (h : inputLoop fuel s t cmd input = some r) :
    (∀ call ∈ r.trace, call.isControlTransfer = true →
      ∃ c row, 0 ≤ c ∧ c ≤ 5 ∧ cmdsRow c = some row ∧ row.length = 8 ∧
        call = Call.controlTransfer s.handle REQUESTTYPE REQUEST VALUE INDEX (some row)
          LENGTH 0) ∧
    (∀ (cmd0 key c : Int), keySwitch cmd0 key = Step.send c →
      0 ≤ c ∧ c ≤ 5 ∧ ∃ row, cmdsRow c = some row ∧ row.length = 8) ∧
    cmdsRow (-1) = none := by
  refine ⟨inputLoop_transfers fuel s t cmd input r h, ?_, rfl⟩
  intro cmd0 key c hs
  exact cmdsRow_of_command c (keySwitch_send_range cmd0 key c hs)

/-- Witness of `transfer_index_in_range`: up, fire, quit from `cmd = -1`. -/
theorem transfer_index_in_range_witness :
    inputLoop 3 acquired ⟨0, 0⟩ (-1) [27, 91, 65, 10, 113] = some
      { session := acquired
        trace := [transfer acquired CMD_UP, transfer acquired CMD_FIRE,
                  Call.releaseInterface (some 7) 0, Call.close (some 7), Call.exit (some 1)]
        ret := 0 } ∧
    (∀ call ∈ [transfer acquired CMD_UP, transfer acquired CMD_FIRE,
        Call.releaseInterface (some 7) 0, Call.close (some 7), Call.exit (some 1)],
      call.isControlTransfer = true →
      ∃ c row, 0 ≤ c ∧ c ≤ 5 ∧ cmdsRow c = some row ∧ row.length = 8 ∧
        call = Call.controlTransfer acquired.handle REQUESTTYPE REQUEST VALUE INDEX (some row)
          LENGTH 0) :=
  ⟨by decide,
    (transfer_index_in_range 3 acquired ⟨0, 0⟩ (-1) [27, 91, 65, 10, 113]
      { session := acquired
        trace := [transfer acquired CMD_UP, transfer acquired CMD_FIRE,
                  Call.releaseInterface (some 7) 0, Call.close (some 7), Call.exit (some 1)]
        ret := 0 } (by decide)).1⟩

/-! ## Exit codes -/

/-- A non-zero `err` is what `cleanup(err)` returns. -/
theorem cleanup_ret_of_err (err : Int) (s : Session) (t : Teardown) (herr : err ≠ 0) :
    (cleanup err s t).ret = err := by
  rw [cleanup_ret]
  split_ifs <;> rfl

/-- When the teardown calls succeed, `cleanup(err)` returns `err`. -/
theorem cleanup_ret_of_success (err : Int) (s : Session) (t : Teardown)
    (hrel : t.releaseRet = 0) (hatt : t.attachRet = 0) : (cleanup err s t).ret = err := by
  rw [cleanup_ret, if_neg (fun h => h.2 hrel), if_neg (fun h => h.2 hatt)]

/-- Calls made before do not change the status. -/
theorem map_ret_after (x : Option Result) (pre : List Call) :
    (x.map (Result.after pre)).map Result.ret = x.map Result.ret := by
  cases x <;> rfl

/-- Only the key `q` takes the quit case. -/
theorem keySwitch_quit (cmd key : Int) (h : keySwitch cmd key = Step.quit) : key = 113 := by
  unfold keySwitch at h
  split_ifs at h with h1 h2 h3 h4 h5 h6 h7
  exact h7

/-- When the user quits with key number `n`, the loop ends within `n + 1`
passes and its status is that of `cleanup(0)`. -/
theorem inputLoop_quit (k : Nat) (s : Session) (t : Teardown) :
    ∀ (n : Nat) (cmd : Int) (input : List Nat), quitsAfter n input = true →
      (inputLoop (k + n + 1) s t cmd input).map Result.ret = some (cleanup 0 s t).ret := by
  intro n
  induction n with
  | zero =>
    intro cmd input hq
    simp only [quitsAfter, decide_eq_true_eq] at hq
    have hsw : keySwitch cmd 113 = Step.quit := by
      unfold keySwitch
      simp
    rw [inputLoop]
    simp only [hq, hsw]
    rfl
  | succ m ih =>
    intro cmd input hq
    simp only [quitsAfter, Bool.and_eq_true, decide_eq_true_eq] at hq
    obtain ⟨⟨h0, h113⟩, hrest⟩ := hq
    show (inputLoop ((k + m + 1) + 1) s t cmd input).map Result.ret = _
    rw [inputLoop]
    simp only [h0, if_false]
    cases hsw : keySwitch cmd (get input).1 with
    | send c =>
      simp only [map_ret_after]
      exact ih c (get input).2 hrest
    | quit => exact absurd (keySwitch_quit cmd _ hsw) h113
    | unrecognized =>
      simp only [map_ret_after]
      exact ih cmd (get input).2 hrest

/-- The status of `main` from the interface claim on. -/
theorem mainClaim_ret (e : Env) (fuel n : Nat) (s : Session) (pre : List Call) :
    (e.claimRet ≠ 0 → (mainClaim e fuel s pre).map Result.ret = some 5) ∧
    (e.claimRet = 0 → quitsAfter n e.input = true →
      (mainClaim e (fuel + n + 1) s pre).map Result.ret =
        some (cleanup 0 { s with claimed := 1 } e.teardown).ret) := by
  constructor
  · intro hc
    unfold mainClaim
    simp only [hc, ne_eq, not_false_eq_true, if_true, Option.map_some']
    exact congrArg some (cleanup_ret_of_err 5 s e.teardown (by decide))
  · intro hc hq
    unfold mainClaim
    simp only [hc, ne_eq, not_true_eq_false, if_false, map_ret_after]
    exact inputLoop_quit fuel _ e.teardown n (-1) e.input hq

/-- The status of `main` from the kernel-driver query on. -/
theorem mainDriver_ret (e : Env) (fuel n : Nat) (s : Session)
    (hrel : e.teardown.releaseRet = 0) (hatt : e.teardown.attachRet = 0) :
    (e.kernelDriverActiveRet ≠ 0 → e.kernelDriverActiveRet ≠ 1 →
      (mainDriver e fuel s).map Result.ret = some 4) ∧
    (e.kernelDriverActiveRet = 1 → e.detachRet ≠ 0 →
      (mainDriver e fuel s).map Result.ret = some 3) ∧
    (e.kernelDriverActiveRet = 0 ∨ (e.kernelDriverActiveRet = 1 ∧ e.detachRet = 0) →
      (e.claimRet ≠ 0 → (mainDriver e fuel s).map Result.ret = some 5) ∧
      (e.claimRet = 0 → quitsAfter n e.input = true →
        (mainDriver e (fuel + n + 1) s).map Result.ret = some 0)) := by
  refine ⟨?_, ?_, ?_⟩
  · intro h0 h1
    unfold mainDriver
    simp only [h0, h1, if_false, Option.map_some']
    exact congrArg some (cleanup_ret_of_err 4 _ e.teardown (by decide))
  · intro h1 hd
    unfold mainDriver
    simp only [h1, one_ne_zero, if_false, if_true, hd, ne_eq, not_false_eq_true,
      Option.map_some']
    exact congrArg some (cleanup_ret_of_err 3 _ e.teardown (by decide))
  · intro hact
    rcases hact with h0 | ⟨h1, hd⟩
    · constructor
      · intro hc
        unfold mainDriver
        simp only [h0, if_true]
        exact (mainClaim_ret e fuel n s _).1 hc
      · intro hc hq
        unfold mainDriver
        simp only [h0, if_true]
        rw [(mainClaim_ret e fuel n s _).2 hc hq]
        exact congrArg some (cleanup_ret_of_success 0 _ e.teardown hrel hatt)
    · constructor
      · intro hc
        unfold mainDriver
        simp only [h1, one_ne_zero, if_false, if_true, hd, ne_eq, not_true_eq_false]
        exact (mainClaim_ret e fuel n _ _).1 hc
      · intro hc hq
        unfold mainDriver
        simp only [h1, one_ne_zero, if_false, if_true, hd, ne_eq, not_true_eq_false]
        rw [(mainClaim_ret e fuel n _ _).2 hc hq]
        exact congrArg some (cleanup_ret_of_success 0 _ e.teardown hrel hatt)

/-- Claim C14: with successful teardown calls, `main` returns 1 when the
enumeration fails, 2 when the open fails, 4 when the driver query fails, 3 when
the detach fails, 5 when the claim fails (for any fuel: the loop is not
reached), and 0 when nothing fails and the user quits (given fuel for the keys
typed before `q`); `cleanup(0)` returns 6 when the interface release fails and
7 when the reattach fails; these seven codes are positive and pairwise
distinct. -/
theorem exit_codes (e : Env) (fuel n i : Nat)
    (hrel : e.teardown.releaseRet = 0) (hatt : e.teardown.attachRet = 0) :
    (e.getDeviceListRet < 0 → (main e fuel).map Result.ret = some 1) ∧
    (0 ≤ e.getDeviceListRet → (scan e.deviceList 0).2 = some i →
      (e.openRet ≠ 0 → (main e fuel).map Result.ret = some 2) ∧
      (e.openRet = 0 →
        (e.kernelDriverActiveRet ≠ 0 → e.kernelDriverActiveRet ≠ 1 →
          (main e fuel).map Result.ret = some 4) ∧
        (e.kernelDriverActiveRet = 1 → e.detachRet ≠ 0 →
          (main e fuel).map Result.ret = some 3) ∧
        (e.kernelDriverActiveRet = 0 ∨ (e.kernelDriverActiveRet = 1 ∧ e.detachRet = 0) →
          (e.claimRet ≠ 0 → (main e fuel).map Result.ret = some 5) ∧
          (e.claimRet = 0 → quitsAfter n e.input = true →
            (main e (fuel + n + 1)).map Result.ret = some 0)))) ∧
    (∀ (s : Session) (t : Teardown), s.claimed ≠ 0 → t.releaseRet ≠ 0 →
      (cleanup 0 s t).ret = 6) ∧
    (∀ (s : Session) (t : Teardown), (s.claimed ≠ 0 → t.releaseRet = 0) → s.attached ≠ 0 →
      t.attachRet ≠ 0 → (cleanup 0 s t).ret = 7) ∧
    ([1, 2, 4, 3, 5, 6, 7] : List Int).Nodup ∧
    (∀ c ∈ ([1, 2, 4, 3, 5, 6, 7] : List Int), 0 < c) := by
  refine ⟨?_, ?_, ?_, ?_, by decide, by decide⟩
  · intro hl
    unfold main
    simp only [hl, if_true, Option.map_some']
  · intro hl hfound
    have hl2 : ¬ e.getDeviceListRet < 0 := not_lt.mpr hl
    constructor
    · intro ho
      unfold main
      simp only [hl2, if_false, hfound, ho, ne_eq, not_false_eq_true, if_true, Option.map_some']
      exact congrArg some (cleanup_ret_of_err 2 _ e.teardown (by decide))
    · intro ho
      have hmain : ∀ f, (main e f).map Result.ret =
          (mainDriver e f
            { attached := 0, claimed := 0
              ctx := if e.initRet = 0 then some e.ctxPtr else none
              devices := none, handle := some e.handlePtr }).map Result.ret := by
        intro f
        unfold main
        simp only [hl2, if_false, hfound, ho, ne_eq, not_true_eq_false, map_ret_after]
      have hd := mainDriver_ret e fuel n
        { attached := 0, claimed := 0
          ctx := if e.initRet = 0 then some e.ctxPtr else none
          devices := none, handle := some e.handlePtr } hrel hatt
      refine ⟨?_, ?_, ?_⟩
      · intro h0 h1
        rw [hmain]
        exact hd.1 h0 h1
      · intro h1 hdet
        rw [hmain]
        exact hd.2.1 h1 hdet
      · intro hact
        constructor
        · intro hc
          rw [hmain]
          exact (hd.2.2 hact).1 hc
        · intro hc hq
          rw [hmain]
          exact (hd.2.2 hact).2 hc hq
  · intro s t hc hr
    rw [cleanup_ret, if_pos ⟨hc, hr⟩]
    rfl
  · intro s t hr ha hat
    rw [cleanup_ret, if_neg (fun h => h.2 (hr h.1)), if_pos ⟨ha, hat⟩]
    rfl

/-- Witness of `exit_codes`: in the run `quitEnv` nothing fails, the user
quits with the first key and `main` returns 0. -/
theorem exit_codes_witness :
    (quitEnv.teardown.releaseRet = 0 ∧ quitEnv.teardown.attachRet = 0) ∧
    (0 ≤ quitEnv.getDeviceListRet ∧ (scan quitEnv.deviceList 0).2 = some 1 ∧
      quitEnv.openRet = 0 ∧ quitEnv.kernelDriverActiveRet = 0 ∧ quitEnv.claimRet = 0 ∧
      quitsAfter 0 quitEnv.input = true) ∧
    (main quitEnv (0 + 0 + 1)).map Result.ret = some 0 :=
  ⟨by decide, by decide,
    ((((exit_codes quitEnv 0 0 1 (by decide) (by decide)).2.1 (by decide) (by decide)).2
      (by decide)).2.2 (Or.inl (by decide))).2 (by decide) (by decide)⟩

end Missile
